import Mathlib

set_option maxRecDepth 100000

/-!
Verification of the URL connectivity diagnostic pipeline and its dual-mode
(AI / rule-based) analysis engine, as implemented in
`src/devops-analyzer/devops-analyzer.py`,
`src/devops-analyzer/url-analyzer/analyze_url.py` and
`src/devops-analyzer/url-analyzer/web_interface.py`.

The network, the external AI service and the wall clock are oracles: each
sub-probe's outcome, the AI response and the current timestamp are passed in
as explicit parameters, and the Python code operating on them is translated
line by line into total Lean functions.  Python dictionaries with a fixed key
set become structures; `None`-able fields become `Option`; a Python
expression that can raise (such as `None.get(...)`, which raises
`AttributeError`) becomes an `Except String` computation carrying `str(e)`.
Latencies (Python floats) are modelled as rationals; the comparisons the code
performs on them (`> 0`, `> 1000`, `< 3000`, ...) are exact in both worlds.
-/

/-! ### String helpers

Executable models of the Python string operations the code uses (`in`,
`lower()`, `strip()`, `endswith`, `f"{x:.0f}"`).  All recursions are
structural so that concrete instances evaluate by kernel reduction. -/

/-- Whether `pat` is a leading segment of `l` (character lists). -/
def hasPre : List Char → List Char → Bool
  | [], _ => true
  | _ :: _, [] => false
  | a :: as, b :: bs => a == b && hasPre as bs

/-- Whether `pat` occurs contiguously somewhere in `l`. -/
def hasSub (pat : List Char) : List Char → Bool
  | [] => pat.isEmpty
  | c :: rest => hasPre pat (c :: rest) || hasSub pat rest

/-- Python's `pat in s` for strings. -/
def strContains (s pat : String) : Bool :=
  hasSub pat.toList s.toList

/-- Python's `s.lower()` (character-list recursion; `Char.toLower` lowercases
exactly the ASCII range, which covers every keyword the code scans for). -/
def pyLower (s : String) : String :=
  String.mk (s.data.map Char.toLower)

/-- Python's `s.strip()`: drop whitespace from both ends. -/
def pyStrip (s : String) : String :=
  String.mk (((s.data.dropWhile Char.isWhitespace).reverse.dropWhile Char.isWhitespace).reverse)

/-- Python's `s.endswith(suffix)`. -/
def strEndsWith (s suffix : String) : Bool :=
  hasPre suffix.data.reverse s.data.reverse

/-- Python's `f"{x:.0f}"` on a nonnegative rational: round to an integer and
print it — `⌊q + 1/2⌋` computed as `(2·num + den) / (2·den)` on integers.
(Python rounds halves to even; this rounds halves up.  The two agree away
from exact halves, in particular on every integral latency.) -/
def fmt0f (q : ℚ) : String :=
  toString ((2 * q.num + (q.den : ℤ)) / (2 * (q.den : ℤ)))

/-! ### Data model: the diagnostic record

`analyze_url_connectivity` (identical in `devops-analyzer.py` lines 37-147,
`analyze_url.py` lines 27-137 and `web_interface.py` lines 29-147) builds a
dict with keys `url`, `hostname`, `port`, `scheme`, `connectivity_tests`,
`dns_resolution`, `ssl_info`, `http_status`, `response_time`, `errors`. -/

/-- `result['dns_resolution']`: always set by the DNS test. -/
inductive DnsRes where
  | resolved (ip_address : String)      -- {'success': True, 'ip_address': ip}
  | failed (error : String)             -- {'success': False, 'error': str(e)}
  deriving DecidableEq, Repr

/-- The dict's `success` key. -/
def DnsRes.success : DnsRes → Bool
  | .resolved _ => true
  | .failed _ => false

/-- `result['connectivity_tests']['port']`: always set by the port test. -/
inductive PortRes where
  /-- `connect_ex` returned: {'success': code == 0, 'port_open': code == 0} -/
  | checked (portOpen : Bool)
  /-- the socket call raised: {'success': False, 'error': str(e)} -/
  | failed (error : String)
  deriving DecidableEq, Repr

/-- The dict's `success` key. -/
def PortRes.success : PortRes → Bool
  | .checked b => b
  | .failed _ => false

/-- `result['ssl_info']` when the TLS probe ran (scheme https). -/
inductive SslRes where
  /-- handshake succeeded: certificate fields (each `cert.get(...)`, so
  possibly absent). -/
  | valid (subject issuer version serialNumber notBefore notAfter : Option String)
  /-- handshake/cert error: {'success': False, 'error': str(e)} -/
  | failed (error : String)
  deriving DecidableEq, Repr

/-- The dict's `success` key. -/
def SslRes.success : SslRes → Bool
  | .valid _ _ _ _ _ _ => true
  | .failed _ => false

/-- `result['http_status']`: always set by the HTTP test. -/
inductive HttpRes where
  /-- `requests.get` returned: status code, reason, redirect count, final URL. -/
  | got (status_code : Nat) (status_text : String) (redirects : Nat) (final_url : String)
  /-- the request raised: {'error': msg}. -/
  | failed (error : String)
  deriving DecidableEq, Repr

/-- The happy-path record of `analyze_url_connectivity` (no top-level
`error` key): the value every report generator consumes. -/
structure ConnRecord where
  url : String
  hostname : Option String
  port : Nat
  scheme : String
  dns_resolution : DnsRes
  port_test : PortRes
  ssl_info : Option SslRes          -- None unless scheme == 'https'
  http_status : HttpRes
  response_time : Option ℚ          -- milliseconds; None iff requests.get raised
  errors : List String
  deriving DecidableEq, Repr

/-- The record returned by the outer `except` of `analyze_url_connectivity`:
`{'url': url, 'error': "Analysis failed: "+str(e), 'errors': [str(e)]}`,
with no sub-probe keys at all. -/
structure FailRecord where
  url : String
  error : String
  errors : List String
  deriving DecidableEq, Repr

/-- Return type of `analyze_url_connectivity`. -/
inductive AnalyzeResult where
  | ok (r : ConnRecord)
  | failureRec (f : FailRecord)
  deriving DecidableEq, Repr

/-! ### Probe oracles

Each sub-probe is an independent blocking call whose outcome the code
branches on; the outcomes are inputs of the embedding. -/

/-- `urllib.parse.urlparse(url)` plus `parsed.port` access: either the parse
step raised (e.g. `ValueError` from an invalid port, caught by the outer
`except`), or it yielded an optional hostname, optional declared port and a
scheme. -/
inductive ParseOutcome where
  | raises (msg : String)
  | parsed (hostname : Option String) (declaredPort : Option Nat) (scheme : String)
  deriving DecidableEq, Repr

/-- `socket.gethostbyname(hostname)`: returns an address or raises. -/
inductive DnsProbe where
  | returns (ip : String)
  | raises (msg : String)
  deriving DecidableEq, Repr

/-- `sock.connect_ex((hostname, port))`: returns an errno (0 = connected) or
the socket calls raise. -/
inductive PortProbe where
  | returns (code : Int)
  | raises (msg : String)
  deriving DecidableEq, Repr

/-- TLS handshake + `getpeercert()`: certificate fields or an exception. -/
inductive TlsProbe where
  | returns (subject issuer version serialNumber notBefore notAfter : Option String)
  | raises (msg : String)
  deriving DecidableEq, Repr

/-- `requests.get(url, timeout=10, allow_redirects=True)` together with the
elapsed-time measurement around it. -/
inductive HttpProbe where
  | responds (status_code : Nat) (reason : String) (redirects : Nat)
      (final_url : String) (elapsedMs : ℚ)
  | timeoutRaised                -- requests.exceptions.Timeout
  | connectionRaised (msg : String)  -- requests.exceptions.ConnectionError
  | raises (msg : String)        -- any other exception
  deriving DecidableEq, Repr

/-! ### The probe pipeline (`analyze_url_connectivity`) -/

/-- `parsed.port or (443 if parsed.scheme == 'https' else 80)`: Python `or`,
so a declared port of 0 also falls through to the default. -/
def effectivePort (declaredPort : Option Nat) (scheme : String) : Nat :=
  match declaredPort with
  | some p => if p = 0 then (if scheme = "https" then 443 else 80) else p
  | none => if scheme = "https" then 443 else 80

/-- DNS test: `result['dns_resolution']` and its `errors` contribution. -/
def dnsResOf : DnsProbe → DnsRes
  | .returns ip => .resolved ip
  | .raises m => .failed m

/-- Error strings appended by the DNS test. -/
def dnsErrsOf : DnsProbe → List String
  | .returns _ => []
  | .raises m => ["DNS Resolution failed: " ++ m]

/-- Port test: `result['connectivity_tests']['port']`. -/
def portResOf : PortProbe → PortRes
  | .returns code => .checked (code == 0)
  | .raises m => .failed m

/-- Error strings appended by the port test.  Note: a nonzero `connect_ex`
return (closed/refused port) appends nothing — only a raising socket call
does. -/
def portErrsOf : PortProbe → List String
  | .returns _ => []
  | .raises m => ["Port connection failed: " ++ m]

/-- SSL test: runs only when the scheme is https. -/
def sslResOf (scheme : String) : TlsProbe → Option SslRes
  | .returns su is v sn nb na =>
      if scheme = "https" then some (.valid su is v sn nb na) else none
  | .raises m => if scheme = "https" then some (.failed m) else none

/-- Error strings appended by the SSL test. -/
def sslErrsOf (scheme : String) : TlsProbe → List String
  | .returns _ _ _ _ _ _ => []
  | .raises m => if scheme = "https" then ["SSL Certificate issue: " ++ m] else []

/-- HTTP test: `result['http_status']`. -/
def httpResOf : HttpProbe → HttpRes
  | .responds c t r f _ => .got c t r f
  | .timeoutRaised => .failed "Request timeout"
  | .connectionRaised _ => .failed "Connection error"
  | .raises m => .failed m

/-- `result['response_time']`: set only when `requests.get` returned. -/
def respTimeOf : HttpProbe → Option ℚ
  | .responds _ _ _ _ ms => some ms
  | _ => none

/-- Error strings appended by the HTTP test: a transport failure, or an HTTP
status >= 400 even though the request itself succeeded. -/
def httpErrsOf : HttpProbe → List String
  | .responds c t _ _ _ => if 400 ≤ c then ["HTTP Error " ++ toString c ++ ": " ++ t] else []
  | .timeoutRaised => ["Request timed out"]
  | .connectionRaised m => ["Connection error: " ++ m]
  | .raises m => ["HTTP request failed: " ++ m]

/-- The record built by `analyze_url_connectivity` once the URL parsed:
the four sub-probes run in order (DNS, port, TLS, HTTP), each appending its
error strings to `errors`. -/
def analyzeRecord (url : String) (hostname : Option String)
    (declaredPort : Option Nat) (scheme : String)
    (dnsO : DnsProbe) (portO : PortProbe) (tlsO : TlsProbe) (httpO : HttpProbe) :
    ConnRecord :=
  { url := url
    hostname := hostname
    port := effectivePort declaredPort scheme
    scheme := scheme
    dns_resolution := dnsResOf dnsO
    port_test := portResOf portO
    ssl_info := sslResOf scheme tlsO
    http_status := httpResOf httpO
    response_time := respTimeOf httpO
    errors := dnsErrsOf dnsO ++ portErrsOf portO ++ sslErrsOf scheme tlsO ++ httpErrsOf httpO }

/-- `analyze_url_connectivity` (lines 37-147 of `devops-analyzer.py`; the
copies in `analyze_url.py` and `web_interface.py` are identical): never
raises — a parse failure is caught by the outer `except` and returned as a
`FailRecord`. -/
def analyze_url_connectivity (url : String) (parse : ParseOutcome)
    (dnsO : DnsProbe) (portO : PortProbe) (tlsO : TlsProbe) (httpO : HttpProbe) :
    AnalyzeResult :=
  match parse with
  | .raises m => .failureRec { url := url, error := "Analysis failed: " ++ m, errors := [m] }
  | .parsed hostname declaredPort scheme =>
      .ok (analyzeRecord url hostname declaredPort scheme dnsO portO tlsO httpO)

/-! ### devops-analyzer fallback: the no-question full report

`_generate_url_fallback` (`devops-analyzer.py` lines 464-570).  The wall
clock (`datetime.now().isoformat()`) is the `now` parameter.  The function's
own `try/except` never fires on a well-formed record (every dict access
below is guarded), so the happy body is the whole function here. -/

/-- Checklist line for `dns_resolution`. -/
def devopsDnsLine : DnsRes → String
  | .resolved ip => "✅ **DNS Resolution:** " ++ ip ++ "\n"
  | .failed _ => "❌ **DNS Resolution:** Failed\n"

/-- Checklist line for the port test. -/
def devopsPortLine (port : Nat) (p : PortRes) : String :=
  if p.success then "✅ **Port " ++ toString port ++ ":** Open\n"
  else "❌ **Port " ++ toString port ++ ":** Closed or blocked\n"

/-- Checklist line for `ssl_info`: `if data.get('ssl_info') and
data.get('ssl_info', {}).get('success') ... elif data.get('ssl_info') ...
else` — the one report variant that distinguishes the plaintext-HTTP case. -/
def devopsSslLine (s : Option SslRes) : String :=
  match s with
  | some info =>
      if info.success then "✅ **SSL Certificate:** Valid\n"
      else "❌ **SSL Certificate:** Invalid or expired\n"
  | none => "⚪ **SSL Certificate:** Not applicable (HTTP)\n"

/-- Checklist line for `http_status` (`.get('status_code')` and
`.get('error')` are Python-truthy tests, so a 0 status or empty error
message falls through to "Failed to retrieve"). -/
def devopsHttpLine : HttpRes → String
  | .got code text _ _ =>
      if code ≠ 0 then
        (if 200 ≤ code ∧ code < 300 then "✅" else "❌") ++ " **HTTP Status:** "
          ++ toString code ++ " " ++ text ++ "\n"
      else "❌ **HTTP Status:** Failed to retrieve\n"
  | .failed e =>
      if e ≠ "" then "❌ **HTTP Status:** " ++ e ++ "\n"
      else "❌ **HTTP Status:** Failed to retrieve\n"

/-- Checklist line for `response_time` (a 0 ms value is Python-falsy). -/
def devopsRespLine (rt : Option ℚ) : String :=
  match rt with
  | some ms =>
      if ms ≠ 0 then
        (if ms < 1000 then "✅" else "⚠️") ++ " **Response Time:** " ++ fmt0f ms ++ "ms\n"
      else "❌ **Response Time:** Failed to measure\n"
  | none => "❌ **Response Time:** Failed to measure\n"

/-- The "Issues Found" section: the `errors` list verbatim, or the
no-issues sentence. -/
def issuesFound (errors : List String) : String :=
  "\n## 🚨 Issues Found\n" ++
  (if errors.isEmpty then "No critical issues detected.\n"
   else String.join (errors.map (fun e => "• " ++ e ++ "\n")))

/-- The priority section (`devops-analyzer.py` lines 535-541; the identical
fragment appears in `analyze_url.py` lines 334-340 and `web_interface.py`
lines 579-585): `if not errors ... elif len(errors) <= 2 ... else ...`. -/
def priorityAssessment (errors : List String) : String :=
  if errors.isEmpty then "🟢 **Priority: Low** - No critical issues\n"
  else if errors.length ≤ 2 then "🟡 **Priority: Medium** - Some issues detected\n"
  else "🔴 **Priority: High** - Multiple critical issues\n"

/-- The priority tier as the spec words it: a function of the error COUNT
alone (0 -> Low, 1-2 -> Medium, >=3 -> High), for comparison with
`priorityAssessment`. -/
def priorityLineOfCount (n : Nat) : String :=
  if n = 0 then "🟢 **Priority: Low** - No critical issues\n"
  else if n ≤ 2 then "🟡 **Priority: Medium** - Some issues detected\n"
  else "🔴 **Priority: High** - Multiple critical issues\n"

/-- Everything of the devops full report before the priority line. -/
def devopsReportPre (d : ConnRecord) (now : String) : String :=
  "\n# URL Analysis Report\n\n**URL:** " ++ d.url ++ "\n**Analyzed:** " ++ now ++
  "\n\n## 🔍 Test Results\n\n### Connectivity Tests\n" ++
  devopsDnsLine d.dns_resolution ++
  devopsPortLine d.port d.port_test ++
  devopsSslLine d.ssl_info ++
  devopsHttpLine d.http_status ++
  devopsRespLine d.response_time ++
  issuesFound d.errors ++
  "\n## 🔧 Troubleshooting Steps\n\n" ++
  "1. **Check connectivity** - Verify network access to the target\n" ++
  "2. **Verify DNS** - Ensure domain resolution is working\n" ++
  "3. **Test ports** - Confirm required ports are open\n" ++
  "4. **Check SSL** - Validate certificate for HTTPS sites\n" ++
  "5. **DNS settings** - Verify DNS resolution\n" ++
  "6. **Service status** - Check if the target service is running\n" ++
  "\n## 📊 Priority Assessment\n"

/-- Closing boilerplate of the devops full report. -/
def devopsReportFooter : String :=
  "\n\n---\n*This analysis was generated automatically. For AI-powered insights, ensure the analysis service is available.*\n"

/-- The full no-question report of `_generate_url_fallback`. -/
def devopsUrlReport (d : ConnRecord) (now : String) : String :=
  devopsReportPre d now ++ priorityAssessment d.errors ++ devopsReportFooter

/-! ### devops-analyzer fallback: the answer-only generator

`_generate_answer_only` (`devops-analyzer.py` lines 572-728): classify the
question by case-insensitive substring matching, first match wins, and
compose the answer from the record's fields. -/

/-- `response_time_ms`: `data.get('response_time', {}).get('milliseconds', 0)
if data.get('response_time') and data.get('response_time', {}).get('milliseconds')
else 0` — a missing or Python-falsy (0) latency collapses to 0. -/
def pyRespTimeMs (d : ConnRecord) : ℚ :=
  match d.response_time with
  | some ms => if ms = 0 then 0 else ms
  | none => 0

/-- Bucket keywords, first `if` of the chain:
`'availability' in q or 'improve' in q or 'optimiz' in q`. -/
def availMatch (ql : String) : Bool :=
  strContains ql "availability" || strContains ql "improve" || strContains ql "optimiz"

/-- `'slow' in q or 'performance' in q`. -/
def perfMatch (ql : String) : Bool :=
  strContains ql "slow" || strContains ql "performance"

/-- `'secure' in q or 'security' in q or 'safe' in q or 'trust' in q or
'certificate' in q`. -/
def secMatch (ql : String) : Bool :=
  strContains ql "secure" || strContains ql "security" || strContains ql "safe" ||
  strContains ql "trust" || strContains ql "certificate"

/-- `'error' in q or 'issue' in q or 'problem' in q`. -/
def errMatch (ql : String) : Bool :=
  strContains ql "error" || strContains ql "issue" || strContains ql "problem"

/-- `'what' in q and ('use' in q or 'purpose' in q or 'is' in q)`. -/
def whatMatch (ql : String) : Bool :=
  strContains ql "what" &&
  (strContains ql "use" || strContains ql "purpose" || strContains ql "is")

/-- The five keyword buckets plus the final `else`. -/
inductive Bucket where
  | availability | performance | security | issues | identity | generic
  deriving DecidableEq, Repr

/-- The `elif` chain of `_generate_answer_only` as a classifier (the code
inlines it; the branch bodies are below). -/
def classifyQuestion (q : String) : Bucket :=
  let ql := (pyLower q)
  if availMatch ql then .availability
  else if perfMatch ql then .performance
  else if secMatch ql then .security
  else if errMatch ql then .issues
  else if whatMatch ql then .identity
  else .generic

/-- Availability/optimization branch (lines 578-603). -/
def availabilityAnswer (d : ConnRecord) : String :=
  let ms := pyRespTimeMs d
  (if ms > 1000 then
    "Based on the current connectivity analysis, your service is experiencing slower response times (" ++ fmt0f ms ++ "ms), which can impact availability. " ++
    "To improve availability, you should implement caching strategies at multiple levels (application, database, and CDN) to reduce latency. "
  else
    "Your service is currently performing well with a response time of " ++ fmt0f ms ++ "ms. ") ++
  (if d.ssl_info = none then
    "However, you're currently using HTTP, which poses security risks and can impact availability. Upgrading to HTTPS is critical for both security and reliability, as it ensures encrypted connections and prevents potential man-in-the-middle attacks. "
  else "") ++
  (if ¬ d.errors.isEmpty then
    "Additionally, there are some issues that need attention: " ++
    String.intercalate "; " (d.errors.take 2) ++ ". " ++
    "These should be addressed to ensure stable service availability. "
  else
    "The connectivity tests show no critical issues detected, indicating your service is stable. ") ++
  "To further enhance availability, consider deploying across multiple Availability Zones (AZs) to ensure redundancy and fault tolerance. " ++
  "Setting up comprehensive health checks and monitoring alerts will help you proactively identify and resolve issues before they impact users. " ++
  "Implementing proper load balancing ensures traffic is distributed evenly across your infrastructure, and auto-scaling based on demand patterns will help maintain performance during traffic spikes."

/-- Severe performance tier (`response_time_ms > 2000`). -/
def perfSevere (ms : ℚ) : String :=
  "Your service is experiencing very slow response times (" ++ fmt0f ms ++ "ms), which significantly impacts user experience. " ++
  "This could be due to high server load, inefficient database queries, or lack of caching. " ++
  "I recommend checking your server resource utilization (CPU, memory, and network), implementing caching at multiple levels (application cache, database query cache, and CDN), and considering a Content Delivery Network (CDN) to serve static content from locations closer to your users."

/-- Moderate performance tier (`response_time_ms > 1000`). -/
def perfModerate (ms : ℚ) : String :=
  "Your service response time is slow (" ++ fmt0f ms ++ "ms) and could be improved. " ++
  "This may be caused by server resource constraints or lack of optimization. " ++
  "I suggest checking server load and resource utilization, implementing caching strategies, and considering a CDN to improve performance, especially for static assets."

/-- Good performance tier (positive `response_time_ms` up to 1000). -/
def perfGood (ms : ℚ) : String :=
  "Your service is performing well with an acceptable response time of " ++ fmt0f ms ++ "ms. " ++
  "This indicates good performance, but you can still optimize further by implementing caching and ensuring your infrastructure is properly scaled for your traffic patterns."

/-- Missing-measurement tier (`response_time_ms` absent or 0). -/
def perfTimeoutText : String :=
  "Unfortunately, I couldn't measure the response time during the connectivity test. " ++
  "This could indicate network issues or the service may be timing out. " ++
  "I recommend checking your server logs, network connectivity, and ensuring your service is properly configured and responding to requests."

/-- Performance branch (lines 605-622). -/
def performanceAnswer (d : ConnRecord) : String :=
  let ms := pyRespTimeMs d
  if ms > 0 then
    if ms > 2000 then perfSevere ms
    else if ms > 1000 then perfModerate ms
    else perfGood ms
  else perfTimeoutText

/-- Security branch (lines 624-637): valid TLS / plaintext HTTP /
present-but-invalid TLS. -/
def securityAnswer (d : ConnRecord) : String :=
  match d.ssl_info with
  | some info =>
      if info.success then
        "Your website is properly secured with a valid SSL certificate configured correctly. " ++
        "This means your connections are encrypted using HTTPS, which protects data in transit between clients and your server. " ++
        "Your SSL certificate is valid and properly configured, providing both security and trust for your users."
      else
        "There are SSL certificate issues detected with your HTTPS configuration. " ++
        "This could mean the certificate is expired, invalid, or misconfigured. " ++
        "You should fix this immediately as it can cause browser warnings for your users and potentially expose security vulnerabilities."
  | none =>
      "Your website is currently using HTTP, which is a critical security concern. " ++
      "All data transmitted between users and your server is unencrypted, making it vulnerable to interception and man-in-the-middle attacks. " ++
      "I strongly recommend upgrading to HTTPS immediately by obtaining an SSL certificate (you can use free certificates from Let's Encrypt). " ++
      "Additionally, implement HTTPS redirects to automatically send HTTP traffic to HTTPS, and add security headers like HSTS (HTTP Strict Transport Security) and CSP (Content Security Policy) to further enhance your security posture."

/-- Errors/issues branch (lines 639-653): echo up to 5 error entries, plus
an HTTP remark when `status_code >= 400` (via `.get('status_code', 0)`). -/
def errorsAnswer (d : ConnRecord) : String :=
  (if ¬ d.errors.isEmpty then
    "During the connectivity analysis, I found several issues that need attention:\n" ++
    String.intercalate "\n" ((d.errors.take 5).map (fun e => "  - " ++ e)) ++ "\n" ++
    "These issues should be investigated and resolved to ensure your service operates correctly. " ++
    "Check your server logs, review your configuration, and verify that all required services are running properly."
  else
    "Based on the connectivity tests performed, no critical issues were detected with your service. " ++
    "The DNS resolution is working, the required ports are open, and the service is responding correctly. " ++
    "However, I recommend regularly monitoring your service and performing periodic checks to maintain this healthy state.") ++
  (match d.http_status with
   | .got code _ _ _ =>
      if 400 ≤ code then
        " Additionally, there's an HTTP error (" ++ toString code ++ ") being returned, which indicates the service is encountering issues. " ++
        "You should check your service logs and application error handling to identify and resolve the root cause."
      else ""
   | .failed _ => "")

/-- The domain in the identity branch: `urllib.parse.urlparse(data['url']).hostname
or data['url']`.  For records built by `analyzeRecord` this re-parse of the
record's own `url` is the record's `hostname` field, so the embedding reads
it from there. -/
def domainOf (d : ConnRecord) : String :=
  match d.hostname with
  | some h => if h = "" then d.url else h
  | none => d.url

/-- Identity ("what is this") branch (lines 655-700): pattern-match the
hostname against a fixed table of well-known domains. -/
def whatAnswer (d : ConnRecord) : String :=
  let domain := domainOf d
  let dl := pyLower domain
  if strContains dl "google" then
    "This website is Google's search engine and technology platform. " ++
    "Google provides a wide range of services including web search, email (Gmail), cloud computing services (Google Cloud Platform), productivity tools (Google Workspace), and various other online tools and services. " ++
    "The website is accessible and responding correctly based on the connectivity tests."
  else if strContains dl "amazon" || strContains dl "aws" then
    "This is an Amazon Web Services (AWS) endpoint providing cloud infrastructure services. " ++
    "AWS offers a comprehensive suite of cloud computing services including load balancers for traffic distribution, compute resources (EC2, Lambda), storage solutions (S3, EBS), networking services (VPC, CloudFront), and many other managed services. " ++
    "This endpoint appears to be part of AWS's infrastructure for managing and delivering cloud services."
  else if strContains dl "microsoft" || strContains dl "azure" then
    "This is a Microsoft Azure service endpoint providing cloud computing services. " ++
    "Azure is Microsoft's cloud platform offering infrastructure as a service (IaaS), platform as a service (PaaS), and software as a service (SaaS) solutions. " ++
    "It provides services for computing, storage, networking, databases, AI, and other enterprise solutions."
  else if strContains dl "github" then
    "This is GitHub, a web-based platform for version control and software development collaboration. " ++
    "GitHub provides hosting for Git repositories, code collaboration tools, issue tracking, pull requests, and various integrations for software development workflows. " ++
    "It's widely used by developers and organizations for managing source code and collaborative software development."
  else if strContains dl "kubernetes" || strContains dl "k8s" then
    "This is a Kubernetes service endpoint providing container orchestration and management capabilities. " ++
    "Kubernetes is an open-source platform for automating deployment, scaling, and management of containerized applications. " ++
    "It helps manage clusters of containers across multiple hosts and provides features like automatic scaling, service discovery, and load balancing."
  else if strContains dl "localhost" || strContains dl "127.0.0.1" then
    "This is a localhost or local network endpoint, typically used for local development or internal services. " ++
    "Localhost refers to the current computer being used, and services running on localhost are typically only accessible from the same machine. " ++
    "This is commonly used during development and testing phases before deploying services to production environments."
  else if strEndsWith domain ".svc.cluster.local" then
    "This is a Kubernetes internal service endpoint within a cluster. " ++
    "Services with the '.svc.cluster.local' domain are internal Kubernetes services that are accessible only within the cluster. " ++
    "These are used for service discovery and communication between different components of applications running in the Kubernetes cluster."
  else if strContains dl "elb.amazonaws.com" || strContains dl "alb" then
    "This is an AWS Elastic Load Balancer (ALB) or Application Load Balancer endpoint. " ++
    "Load balancers are used to distribute incoming traffic across multiple targets (such as EC2 instances, containers, or IP addresses) to ensure high availability and fault tolerance. " ++
    "They help improve the availability and scalability of your applications by automatically routing traffic to healthy targets and handling traffic spikes."
  else if strContains dl "cloudfront.net" then
    "This is an AWS CloudFront CDN (Content Delivery Network) endpoint. " ++
    "CloudFront is a global content delivery network that speeds up distribution of static and dynamic web content by caching content at edge locations closer to users. " ++
    "It helps reduce latency and improve performance for users accessing your content from different geographic locations around the world."
  else
    "Based on the connectivity tests performed, this website (" ++ domain ++ ") is online and responding correctly. " ++
    "The domain is resolving properly, the required ports are open, and the service is accessible. " ++
    "However, to determine the specific purpose or functionality of this website, you would need to visit the URL directly in a browser or consult the website's documentation, as the connectivity tests only verify network accessibility, not the actual content or services provided."

/-- Generic fallthrough branch (lines 702-724).  Line 713 reads
`data.get('response_time', {}).get('milliseconds')`: when `response_time` is
None this is `None.get(...)`, an `AttributeError` that the function's
`except` turns into the "Error generating answer" string (the partially
built answer is discarded). -/
def genericAnswer (d : ConnRecord) : String :=
  match d.response_time with
  | none => "Error generating answer: 'NoneType' object has no attribute 'get'"
  | some ms =>
    let domain := domainOf d
    (match d.http_status with
     | .got code text _ _ =>
        if code = 200 then
          "The website (" ++ domain ++ ") is currently online and accessible. "
        else if code ≠ 0 then
          "The website is returning HTTP status " ++ toString code ++ " (" ++ text ++ "). "
        else ""
     | .failed _ => "") ++
    (if ms ≠ 0 then
      if ms < 500 then
        "The service is performing excellently with a response time of " ++ fmt0f ms ++ "ms, which indicates very good performance. "
      else if ms < 1000 then
        "The service has good performance with a response time of " ++ fmt0f ms ++ "ms. "
      else
        "The response time is " ++ fmt0f ms ++ "ms, which could be improved with optimization techniques. "
    else "") ++
    "To maintain and improve service quality, I recommend monitoring performance and availability metrics, implementing proper logging and alerting systems, and conducting regular security assessments. " ++
    (if d.ssl_info = none then
      "Additionally, upgrading to HTTPS would significantly improve security by encrypting all data transmitted between users and your server."
    else "")

/-- `_generate_answer_only` (lines 572-728): the branch chosen by
`classifyQuestion`, then `answer.strip() if answer else "I couldn't ..."`.
(The `AttributeError` path inside the generic branch returns its message
through the function's `except` without stripping; stripping it is the
identity, so the composition below is exact.) -/
def generate_answer_only (d : ConnRecord) (q : String) : String :=
  let built :=
    match classifyQuestion q with
    | .availability => availabilityAnswer d
    | .performance => performanceAnswer d
    | .security => securityAnswer d
    | .issues => errorsAnswer d
    | .identity => whatAnswer d
    | .generic => genericAnswer d
  if built = "" then
    "I couldn't provide a specific answer to your question based on the available data."
  else pyStrip built

/-- `_generate_url_fallback` (lines 464-570): `if question:` (Python truthy,
so an empty question also falls through to the full report). -/
def generate_url_fallback (d : ConnRecord) (q : Option String) (now : String) : String :=
  match q with
  | some s => if s = "" then devopsUrlReport d now else generate_answer_only d s
  | none => devopsUrlReport d now

/-! ### The devops-analyzer dispatcher (`main`, url branch, lines 986-990) -/

/-- The soft-failure keyword list of `devops-analyzer.py` line 988. -/
def softFailureKeywords : List String :=
  ["timeout", "failed", "connection", "api returned status", "api error"]

/-- `any(keyword in analysis.lower() for keyword in [...])`. -/
def devopsAiFailed (analysis : String) : Bool :=
  softFailureKeywords.any (fun k => strContains (pyLower analysis) k)

/-- The dispatch decision of `devops-analyzer.py` `main`: keep the AI text,
or replace it by the fallback output for the same record and question. -/
def devopsDispatchUrl (aiText : String) (d : ConnRecord) (q : Option String)
    (now : String) : String :=
  if devopsAiFailed aiText then generate_url_fallback d q now else aiText

/-! ### The ordered-bucket view of the classifier (for the order-sensitivity
claim): the same five checks as an association list scanned front to back. -/

/-- The five keyword checks in source order, paired with their buckets. -/
def bucketChecks : List ((String → Bool) × Bucket) :=
  [(availMatch, .availability), (perfMatch, .performance), (secMatch, .security),
   (errMatch, .issues), (whatMatch, .identity)]

/-- First-match-wins scan of `bucketChecks`. -/
def firstBucket (ql : String) : Bucket :=
  match bucketChecks.find? (fun c => c.1 ql) with
  | some c => c.2
  | none => .generic

/-! ### url-analyzer (`analyze_url.py`)

The same record consumed by a second CLI.  Several of its renderers read
`connectivity_data.get('ssl_info', {}).get('success')` without guarding: the
`ssl_info` key is always present, so for a plaintext-HTTP record the value is
`None` and `None.get('success')` raises `AttributeError`. -/

/-- `data.get('ssl_info', {}).get('success')` with the key present:
`None` raises, a dict yields its `success` flag. -/
def pyGetSslSuccess (o : Option SslRes) : Except String Bool :=
  match o with
  | none => Except.error "'NoneType' object has no attribute 'get'"
  | some s => Except.ok s.success

/-- The line-by-line summary built by `analyze_url.py`'s `get_ai_analysis`
(lines 146-184; `web_interface.py`'s copy is identical): the only
representation of the record sent to the analysis service. -/
def uaSummary (d : ConnRecord) : Except String (List String) := do
  let dnsLine :=
    match d.dns_resolution with
    | .resolved ip => "✅ DNS resolves to " ++ ip
    | .failed _ => "❌ DNS resolution failed"
  let portLine :=
    if d.port_test.success then "✅ Port " ++ toString d.port ++ " is open"
    else "❌ Port " ++ toString d.port ++ " is closed or blocked"
  let sslOk ← pyGetSslSuccess d.ssl_info
  let sslLine :=
    if sslOk then "✅ SSL certificate is valid" else "❌ SSL certificate issue detected"
  let httpLines :=
    match d.http_status with
    | .got code _ _ _ =>
        if code ≠ 0 then
          [if 200 ≤ code ∧ code < 300 then "✅ HTTP status " ++ toString code ++ " (OK)"
           else if 300 ≤ code ∧ code < 400 then "⚠️  HTTP status " ++ toString code ++ " (Redirect)"
           else "❌ HTTP status " ++ toString code ++ " (Error)"]
        else []
    | .failed _ => []
  let respLines :=
    match d.response_time with
    | some ms =>
        [if ms < 1000 then "✅ Response time " ++ fmt0f ms ++ "ms (Good)"
         else if ms < 3000 then "⚠️  Response time " ++ fmt0f ms ++ "ms (Slow)"
         else "❌ Response time " ++ fmt0f ms ++ "ms (Very slow)"]
    | none => []
  let errLines :=
    if d.errors.isEmpty then []
    else "\n🚨 Issues detected:" :: d.errors.map (fun e => "   • " ++ e)
  return [dnsLine, portLine, sslLine] ++ httpLines ++ respLines ++ errLines

/-- Outcome of the `requests.post` to the analysis service in
`analyze_url.py`'s `get_ai_analysis` (the JSON decode of a 200 response is
folded into `ok200`; a decode failure lands in `raises`). -/
inductive ApiOutcome where
  | ok200 (respField : Option String)     -- 200; `.get('response', default)`
  | status (code : Nat) (text : String)   -- non-200 status and body
  | timeoutRaised                         -- requests.exceptions.Timeout
  | raises (msg : String)                 -- ConnectionError / anything else
  deriving DecidableEq, Repr

/-- `analyze_url.py` `get_ai_analysis` (lines 139-235): build the summary,
call the service, map every failure to a sentinel string.  The summary's
`AttributeError` is caught by the same `except`, before any request is
made, so the result is then independent of the service. -/
def ua_get_ai_analysis (d : ConnRecord) (api : ApiOutcome) : String :=
  match uaSummary d with
  | .error e => "AI analysis failed: " ++ e
  | .ok _ =>
      match api with
      | .ok200 r => r.getD "No AI response available"
      | .status c t => "AI API returned status " ++ toString c ++ ": " ++ t
      | .timeoutRaised => "AI API timeout - using fallback analysis"
      | .raises m => "AI analysis failed: " ++ m

/-- The static troubleshooting block of `analyze_url.py`'s fallback. -/
def uaStaticBlock : String :=
  "\n## 🔧 General Troubleshooting Steps\n\n### Immediate Steps\n" ++
  "1. **Check URL spelling** - Ensure the URL is correct\n" ++
  "2. **Network connectivity** - Verify internet connection\n" ++
  "3. **Firewall settings** - Check if ports are blocked\n" ++
  "4. **DNS settings** - Verify DNS resolution\n" ++
  "5. **Service status** - Check if the target service is running\n" ++
  "\n### Specific Issues\n" ++
  "- **DNS Failures:** Check DNS configuration, try alternative DNS\n" ++
  "- **Port Blocked:** Verify firewall rules, check service listening port\n" ++
  "- **SSL Issues:** Update certificate, check certificate chain\n" ++
  "- **HTTP Errors:** Check service logs, verify configuration\n" ++
  "- **Slow Response:** Check server load, network latency\n" ++
  "\n## 📊 Priority Assessment\n"

/-- The prevention section + closing boilerplate shared by
`analyze_url.py` and `web_interface.py`. -/
def uaPreventionFooter : String :=
  "\n## 🛡️ Prevention Recommendations\n" ++
  "- Implement monitoring and alerting\n" ++
  "- Use load balancers for high availability\n" ++
  "- Regular SSL certificate renewal\n" ++
  "- Performance monitoring and optimization\n" ++
  "- Backup DNS configurations\n" ++
  "\n---\n*This analysis was generated automatically. For AI-powered insights, ensure the analysis service is available.*\n"

/-- `analyze_url.py` `generate_fallback_analysis` (lines 237-354).  Unlike
the devops variant, its SSL checklist line and parts of its question section
are unguarded `.get` chains, so the whole function can raise. -/
def ua_generate_fallback_analysis (url : String) (q : Option String)
    (d : ConnRecord) (now : String) : Except String String := do
  let header :=
    "\n# URL Analysis Report\n\n**URL:** " ++ url ++ "\n**Analyzed:** " ++ now ++
    "\n\n## 🔍 Test Results\n\n### Connectivity Tests\n"
  let dnsLine := devopsDnsLine d.dns_resolution
  let portLine := devopsPortLine d.port d.port_test
  let sslOk ← pyGetSslSuccess d.ssl_info
  let sslLine :=
    if sslOk then "✅ **SSL Certificate:** Valid\n"
    else "❌ **SSL Certificate:** Invalid or expired\n"
  let httpLine :=
    match d.http_status with
    | .got code text _ _ =>
        if code ≠ 0 then
          (if 200 ≤ code ∧ code < 300 then "✅" else "❌") ++ " **HTTP Status:** "
            ++ toString code ++ " " ++ text ++ "\n"
        else ""
    | .failed _ => ""
  let respLine :=
    match d.response_time with
    | some ms => (if ms < 1000 then "✅" else "⚠️") ++ " **Response Time:** " ++ fmt0f ms ++ "ms\n"
    | none => ""
  let questionSection ←
    match q with
    | some s =>
        if s = "" then pure ""
        else do
          let ql := pyLower s
          let head := "\n## 🤖 Analysis for Your Question\n\n**Question:** " ++ s ++ "\n\n"
          if strContains ql "improve" || strContains ql "optimiz" then do
            -- `connectivity_data.get('response_time', {}).get('milliseconds', 0)`
            -- raises on a None response_time.
            let slowLine ←
              match d.response_time with
              | none => Except.error "'NoneType' object has no attribute 'get'"
              | some ms =>
                  pure (if ms > 1000 then "• Response time is slow - consider caching and CDN\n" else "")
            pure (head ++ "### 🚀 Improvement Recommendations:\n" ++ slowLine ++
              "• Set up comprehensive monitoring\n" ++
              "• Implement automated health checks\n" ++
              "• Use performance monitoring tools\n")
          else if strContains ql "slow" || strContains ql "performance" then
            pure (head ++ "### ⚡ Performance Analysis:\n" ++
              "• Check server load and resource utilization\n" ++
              "• Implement caching at multiple levels\n" ++
              "• Consider using a Content Delivery Network (CDN)\n")
          else if strContains ql "secure" || strContains ql "security" then do
            let sslOk2 ← pyGetSslSuccess d.ssl_info
            pure (head ++ "### 🔒 Security Recommendations:\n" ++
              (if ¬ sslOk2 then "• Fix SSL certificate issues immediately\n" else "") ++
              "• Implement HTTPS redirects\n" ++
              "• Add security headers (HSTS, CSP)\n")
          else
            pure (head ++ "### 📊 General Recommendations:\n" ++
              "• Monitor performance and availability\n" ++
              "• Implement proper logging and alerting\n" ++
              "• Regular security assessments\n")
    | none => pure ""
  return header ++ dnsLine ++ portLine ++ sslLine ++ httpLine ++ respLine ++
    issuesFound d.errors ++ questionSection ++ uaStaticBlock ++
    priorityAssessment d.errors ++ uaPreventionFooter

/-- The soft-failure test of `analyze_url.py` `main` line 430:
only `timeout` and `failed` are checked. -/
def uaAiFailed (analysis : String) : Bool :=
  strContains (pyLower analysis) "timeout" || strContains (pyLower analysis) "failed"

/-- The dispatch decision of `analyze_url.py` `main` (lines 428-435): keep
the AI text or substitute the fallback.  (When the fallback itself raises,
the `except` arm calls it again and the same exception propagates; the
`Except.error` value models that.) -/
def uaDispatch (aiText : String) (url : String) (q : Option String)
    (d : ConnRecord) (now : String) : Except String String :=
  if uaAiFailed aiText then ua_generate_fallback_analysis url q d now
  else Except.ok aiText

/-! ### web_interface.py fallback checklist -/

/-- `web_interface.py` `generate_fallback_analysis` (lines 514-599): the web
fallback report.  Its SSL checklist line is the same unguarded `.get` chain
as the url-analyzer's. -/
def web_generate_fallback_analysis (url : String) (d : ConnRecord)
    (now : String) : Except String String := do
  let header :=
    "\n# URL Issue Analysis Report\n\n**URL:** " ++ url ++ "\n**Analyzed:** " ++ now ++
    "\n\n## 🔍 Test Results\n\n### Connectivity Tests\n"
  let dnsLine := devopsDnsLine d.dns_resolution
  let portLine := devopsPortLine d.port d.port_test
  let sslOk ← pyGetSslSuccess d.ssl_info
  let sslLine :=
    if sslOk then "✅ **SSL Certificate:** Valid\n"
    else "❌ **SSL Certificate:** Invalid or expired\n"
  let httpLine :=
    match d.http_status with
    | .got code text _ _ =>
        if code ≠ 0 then
          (if 200 ≤ code ∧ code < 300 then "✅" else "❌") ++ " **HTTP Status:** "
            ++ toString code ++ " " ++ text ++ "\n"
        else ""
    | .failed _ => ""
  let respLine :=
    match d.response_time with
    | some ms => (if ms < 1000 then "✅" else "⚠️") ++ " **Response Time:** " ++ fmt0f ms ++ "ms\n"
    | none => ""
  let staticBlock :=
    "\n## 🔧 Troubleshooting Steps\n\n### General Steps\n" ++
    "1. **Check URL spelling** - Ensure the URL is correct\n" ++
    "2. **Network connectivity** - Verify internet connection\n" ++
    "3. **Firewall settings** - Check if ports are blocked\n" ++
    "4. **DNS settings** - Verify DNS resolution\n" ++
    "5. **Service status** - Check if the target service is running\n" ++
    "\n### Specific Issues\n" ++
    "- **DNS Failures:** Check DNS configuration, try alternative DNS\n" ++
    "- **Port Blocked:** Verify firewall rules, check service listening port\n" ++
    "- **SSL Issues:** Update certificate, check certificate chain\n" ++
    "- **HTTP Errors:** Check service logs, verify configuration\n" ++
    "- **Slow Response:** Check server load, network latency\n" ++
    "\n## 📊 Priority Assessment\n"
  return header ++ dnsLine ++ portLine ++ sslLine ++ httpLine ++ respLine ++
    issuesFound d.errors ++ staticBlock ++ priorityAssessment d.errors ++
    uaPreventionFooter

/-! ### CLI exit codes -/

/-- A Python process whose `main` raised an uncaught exception exits 1;
otherwise it exits with `main`'s return value. -/
def processExitOf (e : Except String Nat) : Nat :=
  match e with
  | .ok n => n
  | .error _ => 1

/-- `analyze_url.py` `main`: returns 1 on a parse-failure record (line 396);
otherwise displays basic results — whose SSL line (line 410) is the
unguarded `.get` chain and raises on a plaintext record — and finally
returns `1 if errors else 0` (lines 449-451).  The analysis step in between
never changes the returned value; the rare records on which it can itself
raise all carry a non-empty `errors`, so the exit code is unaffected. -/
def uaMainUrlExit (res : AnalyzeResult) : Except String Nat :=
  match res with
  | .failureRec _ => Except.ok 1
  | .ok r => do
      let _ ← pyGetSslSuccess r.ssl_info
      Except.ok (if r.errors.isEmpty then 0 else 1)

/-- `devops-analyzer.py` `main`, url branch: returns 1 on a parse-failure
record (lines 948-950) and otherwise 0 (line 1065) — the record's `errors`
list is never consulted for the exit code.  (Its display and fallback paths
are fully guarded, so no uncaught exception path exists for a well-formed
record.) -/
def devopsMainUrlExit (res : AnalyzeResult) : Nat :=
  match res with
  | .failureRec _ => 1
  | .ok _ => 0

/-! ### Decidable equality for `Except` values (used to evaluate the
fallible renderers at concrete records). -/

deriving instance DecidableEq for Except

/-! ### Concrete records (all built by the probe embedding itself) -/

/-- An https target with every probe succeeding and a 123 ms response. -/
def recGood : ConnRecord :=
  analyzeRecord "https://example.com" (some "example.com") none "https"
    (.returns "93.184.216.34") (.returns 0)
    (.returns (some "CN=example.com") (some "CN=DigiCert") none none none none)
    (.responds 200 "OK" 0 "https://example.com" 123)

/-- An https target, all probes fine, valid TLS, empty `errors`, 2500 ms. -/
def recSlow2500 : ConnRecord :=
  analyzeRecord "https://slow.example" (some "slow.example") none "https"
    (.returns "10.0.0.5") (.returns 0)
    (.returns (some "CN=slow.example") (some "CN=CA") none none none none)
    (.responds 200 "OK" 0 "https://slow.example" 2500)

/-- Same target measured at exactly 1000 ms. -/
def recRt1000 : ConnRecord :=
  analyzeRecord "https://slow.example" (some "slow.example") none "https"
    (.returns "10.0.0.5") (.returns 0)
    (.returns (some "CN=slow.example") (some "CN=CA") none none none none)
    (.responds 200 "OK" 0 "https://slow.example" 1000)

/-- A plaintext http target with every probe succeeding: `ssl_info = none`,
`errors = []`. -/
def recHttpPlain : ConnRecord :=
  analyzeRecord "http://example.com" (some "example.com") none "http"
    (.returns "93.184.216.34") (.returns 0) (.raises "not probed")
    (.responds 200 "OK" 0 "http://example.com" 145)

/-- An https run whose only recorded failure is an HTTP 500. -/
def recOneErr : ConnRecord :=
  analyzeRecord "https://err.example" (some "err.example") none "https"
    (.returns "10.0.0.9") (.returns 0)
    (.returns (some "CN=err.example") (some "CN=CA") none none none none)
    (.responds 500 "Internal Server Error" 0 "https://err.example" 321)

/-- All four sub-probes fail, but the port failure is a nonzero
`connect_ex` code (111, connection refused), not an exception. -/
def recAllFailPortClosed : ConnRecord :=
  analyzeRecord "https://down.example" (some "down.example") none "https"
    (.raises "dns boom") (.returns 111) (.raises "tls boom") .timeoutRaised

/-! ### Claims -/

/-- Claim C1: in the no-question fallback report, the priority tier is a
pure function of the length of the record's `errors` list — 0 errors prints
the Low line, 1 or 2 the Medium line, 3 or more the High line (boundary
cases: exactly 2 is Medium, exactly 3 is High) — and the report is exactly
the fixed text around that priority line. -/
theorem c1_priority_tier_of_error_count :
    (∀ es : List String, priorityAssessment es = priorityLineOfCount es.length)
    ∧ priorityLineOfCount 2 = "🟡 **Priority: Medium** - Some issues detected\n"
    ∧ priorityLineOfCount 3 = "🔴 **Priority: High** - Multiple critical issues\n"
    ∧ (∀ (d : ConnRecord) (now : String),
        generate_url_fallback d none now
          = devopsReportPre d now ++ priorityAssessment d.errors ++ devopsReportFooter) := by
  refine ⟨?_, by decide, by decide, fun d now => rfl⟩
  intro es
  cases es with
  | nil => rfl
  | cons a t => simp [priorityAssessment, priorityLineOfCount]

/-- Claim C2 (amended part): any AI text matching a dispatcher's keyword
test is replaced by that dispatcher's fallback output for the same record
and question — the devops-analyzer dispatcher tests all five substrings,
the url-analyzer dispatcher only `timeout` and `failed`. -/
theorem c2_soft_failure_dispatch :
    (∀ (aiText : String) (d : ConnRecord) (q : Option String) (now : String),
        devopsAiFailed aiText = true →
        devopsDispatchUrl aiText d q now = generate_url_fallback d q now)
    ∧ (∀ (aiText url : String) (q : Option String) (d : ConnRecord) (now : String),
        uaAiFailed aiText = true →
        uaDispatch aiText url q d now = ua_generate_fallback_analysis url q d now) := by
  constructor
  · intro aiText d q now h
    simp [devopsDispatchUrl, h]
  · intro aiText url q d now h
    simp [uaDispatch, h]

/-- Claim C2, the AI text used to refute the claim as stated: it contains
the keyword `api returned status` (one of the five claimed substrings). -/
def cexAiText : String := "AI API returned status 503: Service Unavailable"

/-- Claim C2 (counterexample): an AI text containing `api returned status`
(case-insensitively) is one of the five claimed soft-failure substrings,
yet the url-analyzer dispatcher returns it unchanged instead of the
Fallback Reasoner's output. -/
theorem c2_counterexample :
    devopsAiFailed cexAiText = true
    ∧ uaAiFailed cexAiText = false
    ∧ uaDispatch cexAiText "https://example.com" none recGood "T0" = Except.ok cexAiText
    ∧ ua_generate_fallback_analysis "https://example.com" none recGood "T0"
        ≠ Except.ok cexAiText := by
  refine ⟨by decide, by decide, by decide, by decide⟩

/-- Claim C2 (witness): a timeout-flavoured AI text trips both dispatchers,
which then return the fallback output. -/
theorem c2_soft_failure_dispatch_witness :
    devopsAiFailed "AI API timeout - using fallback analysis" = true
    ∧ devopsDispatchUrl "AI API timeout - using fallback analysis" recGood none "T0"
        = generate_url_fallback recGood none "T0"
    ∧ uaAiFailed "AI API timeout - using fallback analysis" = true
    ∧ uaDispatch "AI API timeout - using fallback analysis" "https://example.com" none recGood "T0"
        = ua_generate_fallback_analysis "https://example.com" none recGood "T0" :=
  ⟨by decide,
   c2_soft_failure_dispatch.1 "AI API timeout - using fallback analysis" recGood none "T0" (by decide),
   by decide,
   c2_soft_failure_dispatch.2 "AI API timeout - using fallback analysis" "https://example.com" none recGood "T0" (by decide)⟩

/-- Claim C3: the Fallback Reasoner's keyword buckets are evaluated in the
fixed order availability/optimization, performance, security, errors/issues,
identity, first match wins (the classifier equals a front-to-back scan of
that list); in particular any question containing `slow` but no
availability keyword lands in the performance bucket — whatever security
keywords it also contains — and the performance bucket's answer is what the
reasoner returns for it. -/
theorem c3_bucket_order :
    (∀ q : String, classifyQuestion q = firstBucket (pyLower q))
    ∧ (∀ q : String, availMatch (pyLower q) = false → strContains (pyLower q) "slow" = true →
        classifyQuestion q = Bucket.performance)
    ∧ (∀ (d : ConnRecord) (q : String), classifyQuestion q = Bucket.performance →
        generate_answer_only d q
          = (if performanceAnswer d = ""
             then "I couldn't provide a specific answer to your question based on the available data."
             else pyStrip (performanceAnswer d)))
    ∧ classifyQuestion "Why is this slow? Is it secure?" = Bucket.performance
    ∧ secMatch (pyLower "Why is this slow? Is it secure?") = true := by
  refine ⟨?_, ?_, ?_, by decide, by decide⟩
  · intro q
    cases h1 : availMatch (pyLower q) <;> cases h2 : perfMatch (pyLower q) <;>
      cases h3 : secMatch (pyLower q) <;> cases h4 : errMatch (pyLower q) <;>
      cases h5 : whatMatch (pyLower q) <;>
      simp [classifyQuestion, firstBucket, bucketChecks, List.find?, h1, h2, h3, h4, h5]
  · intro q h1 h2
    simp [classifyQuestion, h1, perfMatch, h2]
  · intro d q h
    simp [generate_answer_only, h]

/-- Claim C3 (witness): the crafted multi-keyword question is classified as
performance, not security. -/
theorem c3_bucket_order_witness :
    classifyQuestion "Why is this slow? Is it secure?" = Bucket.performance
    ∧ generate_answer_only recGood "Why is this slow? Is it secure?"
        = (if performanceAnswer recGood = ""
           then "I couldn't provide a specific answer to your question based on the available data."
           else pyStrip (performanceAnswer recGood)) :=
  ⟨c3_bucket_order.2.1 "Why is this slow? Is it secure?" (by decide) (by decide),
   c3_bucket_order.2.2.1 recGood "Why is this slow? Is it secure?"
     (c3_bucket_order.2.1 "Why is this slow? Is it secure?" (by decide) (by decide))⟩

/-- Claim C4 (counterexample): at exactly 1000 ms — inside the claim's
"between 1000 and 2000 ms" moderate band — the performance bucket returns
the good-performance text, not the moderate text. -/
theorem c4_counterexample :
    pyRespTimeMs recRt1000 = 1000
    ∧ generate_answer_only recRt1000 "why is this slow?" = perfGood 1000
    ∧ perfGood 1000 ≠ perfModerate 1000
    ∧ strContains (generate_answer_only recRt1000 "why is this slow?") "performing well" = true
    ∧ strContains (generate_answer_only recRt1000 "why is this slow?") "response time is slow" = false := by
  refine ⟨by decide, by decide, by decide, by decide, by decide⟩

/-- Claim C4 (amended): the performance bucket's answer is keyed on
`latency_ms` with exclusive lower bounds — severe strictly above 2000 ms,
moderate strictly above 1000 up to and including 2000, good for positive
values up to and including 1000, and the possible-timeout text when the
latency is absent (or reads 0); the tier texts are pairwise distinct; and
the claim's concrete record (2500 ms, no errors, valid TLS, question "why
is this slow?") gets the severe text with no SSL remediation wording. -/
theorem c4_performance_tiers :
    (∀ d : ConnRecord, 2000 < pyRespTimeMs d →
        performanceAnswer d = perfSevere (pyRespTimeMs d))
    ∧ (∀ d : ConnRecord, 1000 < pyRespTimeMs d → pyRespTimeMs d ≤ 2000 →
        performanceAnswer d = perfModerate (pyRespTimeMs d))
    ∧ (∀ d : ConnRecord, 0 < pyRespTimeMs d → pyRespTimeMs d ≤ 1000 →
        performanceAnswer d = perfGood (pyRespTimeMs d))
    ∧ (∀ d : ConnRecord, pyRespTimeMs d = 0 → performanceAnswer d = perfTimeoutText)
    ∧ (∀ d : ConnRecord, d.response_time = none → pyRespTimeMs d = 0)
    ∧ generate_answer_only recSlow2500 "why is this slow?" = perfSevere 2500
    ∧ strContains (generate_answer_only recSlow2500 "why is this slow?") "SSL" = false
    ∧ (perfSevere 2500 ≠ perfModerate 2500 ∧ perfModerate 1500 ≠ perfGood 1500
       ∧ perfGood 800 ≠ perfTimeoutText) := by
  refine ⟨?_, ?_, ?_, ?_, ?_, by decide, by decide, by decide, by decide, by decide⟩
  · intro d h
    have h0 : (0 : ℚ) < pyRespTimeMs d := lt_trans (by norm_num) h
    simp only [performanceAnswer]
    rw [if_pos h0, if_pos h]
  · intro d h1 h2
    have h0 : (0 : ℚ) < pyRespTimeMs d := lt_trans (by norm_num) h1
    have hn : ¬ (2000 : ℚ) < pyRespTimeMs d := not_lt.mpr h2
    simp only [performanceAnswer]
    rw [if_pos h0, if_neg hn, if_pos h1]
  · intro d h1 h2
    have hn2 : ¬ (2000 : ℚ) < pyRespTimeMs d := not_lt.mpr (le_trans h2 (by norm_num))
    have hn1 : ¬ (1000 : ℚ) < pyRespTimeMs d := not_lt.mpr h2
    simp only [performanceAnswer]
    rw [if_pos h1, if_neg hn2, if_neg hn1]
  · intro d h
    simp only [performanceAnswer]
    rw [h]
    norm_num
  · intro d h
    simp [pyRespTimeMs, h]

/-- Claim C4 (witness): the tier selectors applied at the concrete records. -/
theorem c4_performance_tiers_witness :
    performanceAnswer recSlow2500 = perfSevere (pyRespTimeMs recSlow2500)
    ∧ performanceAnswer recRt1000 = perfGood (pyRespTimeMs recRt1000) :=
  ⟨c4_performance_tiers.1 recSlow2500 (by decide),
   c4_performance_tiers.2.2.1 recRt1000 (by decide) (by decide)⟩

/-- Claim C5 (counterexample): a run in which all four sub-probes fail —
but the port failure is `connect_ex` returning 111 (connection refused)
rather than an exception — records only three error entries, with no port
entry at all: a failed sub-probe contributed no entry, and the record does
not have four entries in DNS, port, TLS, HTTP order. -/
theorem c5_counterexample :
    recAllFailPortClosed.dns_resolution.success = false
    ∧ recAllFailPortClosed.port_test.success = false
    ∧ recAllFailPortClosed.ssl_info.map SslRes.success = some false
    ∧ recAllFailPortClosed.http_status = HttpRes.failed "Request timeout"
    ∧ recAllFailPortClosed.errors
        = ["DNS Resolution failed: dns boom", "SSL Certificate issue: tls boom",
           "Request timed out"]
    ∧ recAllFailPortClosed.errors.length = 3 := by
  refine ⟨by decide, by decide, by decide, by decide, by decide, by decide⟩

/-- Claim C5 (amended): `errors` is always the concatenation of the DNS,
port, TLS and HTTP contributions in probe execution order, each failed
sub-probe contributing AT MOST one entry (a closed port reported by
`connect_ex` contributes none; every raising sub-probe contributes exactly
one); when all four probes fail by raising, the four entries appear in the
order DNS, port, TLS, HTTP. -/
theorem c5_errors_order :
    (∀ (url : String) (hostname : Option String) (declPort : Option Nat) (scheme : String)
        (dnsO : DnsProbe) (portO : PortProbe) (tlsO : TlsProbe) (httpO : HttpProbe),
        (analyzeRecord url hostname declPort scheme dnsO portO tlsO httpO).errors
          = dnsErrsOf dnsO ++ portErrsOf portO ++ sslErrsOf scheme tlsO ++ httpErrsOf httpO)
    ∧ (∀ dnsO, (dnsErrsOf dnsO).length ≤ 1)
    ∧ (∀ portO, (portErrsOf portO).length ≤ 1)
    ∧ (∀ scheme tlsO, (sslErrsOf scheme tlsO).length ≤ 1)
    ∧ (∀ httpO, (httpErrsOf httpO).length ≤ 1)
    ∧ (∀ m, portErrsOf (.raises m) = ["Port connection failed: " ++ m])
    ∧ (∀ c, portErrsOf (.returns c) = [])
    ∧ (∀ (url : String) (hostname : Option String) (declPort : Option Nat) (dm pm tm hm : String),
        (analyzeRecord url hostname declPort "https"
            (.raises dm) (.raises pm) (.raises tm) (.raises hm)).errors
          = ["DNS Resolution failed: " ++ dm, "Port connection failed: " ++ pm,
             "SSL Certificate issue: " ++ tm, "HTTP request failed: " ++ hm]) := by
  refine ⟨fun _ _ _ _ _ _ _ _ => rfl, ?_, ?_, ?_, ?_, fun m => rfl, fun c => rfl,
    fun _ _ _ _ _ _ _ => rfl⟩
  · intro dnsO; cases dnsO <;> simp [dnsErrsOf]
  · intro portO; cases portO <;> simp [portErrsOf]
  · intro scheme tlsO
    cases tlsO with
    | returns a b c d e f => simp [sslErrsOf]
    | raises m => simp only [sslErrsOf]; split <;> simp
  · intro httpO
    cases httpO with
    | responds c t r f ms => simp only [httpErrsOf]; split <;> simp
    | timeoutRaised => simp [httpErrsOf]
    | connectionRaised m => simp [httpErrsOf]
    | raises m => simp [httpErrsOf]

/-- Claim C6: whenever the scheme is not https, the returned record's
`ssl_info` is `None` and `errors` is exactly the DNS, port and HTTP
contributions — no TLS entry is appended — whatever the probe outcomes. -/
theorem c6_no_tls_for_non_https :
    ∀ (url : String) (hostname : Option String) (declPort : Option Nat) (scheme : String)
      (dnsO : DnsProbe) (portO : PortProbe) (tlsO : TlsProbe) (httpO : HttpProbe),
      scheme ≠ "https" →
      (analyzeRecord url hostname declPort scheme dnsO portO tlsO httpO).ssl_info = none
      ∧ (analyzeRecord url hostname declPort scheme dnsO portO tlsO httpO).errors
          = dnsErrsOf dnsO ++ portErrsOf portO ++ httpErrsOf httpO := by
  intro url hostname declPort scheme dnsO portO tlsO httpO h
  constructor
  · cases tlsO <;> simp [analyzeRecord, sslResOf, h]
  · cases tlsO <;> simp [analyzeRecord, sslErrsOf, h]

/-- Claim C6 (witness): a plaintext `http://` run with the TLS oracle set to
raise still yields `ssl_info = none` and a TLS-free error list. -/
theorem c6_no_tls_for_non_https_witness :
    (analyzeRecord "http://example.com" (some "example.com") none "http"
        (.returns "93.184.216.34") (.returns 0) (.raises "handshake boom")
        (.responds 200 "OK" 0 "http://example.com" 145)).ssl_info = none
    ∧ (analyzeRecord "http://example.com" (some "example.com") none "http"
        (.returns "93.184.216.34") (.returns 0) (.raises "handshake boom")
        (.responds 200 "OK" 0 "http://example.com" 145)).errors
        = dnsErrsOf (.returns "93.184.216.34") ++ portErrsOf (.returns 0)
          ++ httpErrsOf (.responds 200 "OK" 0 "http://example.com" 145) :=
  c6_no_tls_for_non_https "http://example.com" (some "example.com") none "http"
    (.returns "93.184.216.34") (.returns 0) (.raises "handshake boom")
    (.responds 200 "OK" 0 "http://example.com" 145) (by decide)

/-- Claim C7: the probe function never raises — a raising parse step is
returned as a record whose `errors` holds the single parse-failure message
and which has no sub-probe outcome fields at all; and the sub-probes are
isolated: the HTTP fields of the record are determined by the HTTP outcome
alone (a DNS, port or TLS exception cannot change them), a raising DNS
probe contributes its entry while the others still contribute theirs. -/
theorem c7_never_raises_isolated :
    (∀ (url msg : String) (dnsO : DnsProbe) (portO : PortProbe) (tlsO : TlsProbe)
        (httpO : HttpProbe),
        analyze_url_connectivity url (.raises msg) dnsO portO tlsO httpO
          = .failureRec { url := url, error := "Analysis failed: " ++ msg, errors := [msg] })
    ∧ (∀ (url : String) (hostname : Option String) (declPort : Option Nat) (scheme : String)
        (dnsO dnsO' : DnsProbe) (portO portO' : PortProbe) (tlsO tlsO' : TlsProbe)
        (httpO : HttpProbe),
        (analyzeRecord url hostname declPort scheme dnsO portO tlsO httpO).http_status
          = (analyzeRecord url hostname declPort scheme dnsO' portO' tlsO' httpO).http_status
        ∧ (analyzeRecord url hostname declPort scheme dnsO portO tlsO httpO).response_time
          = (analyzeRecord url hostname declPort scheme dnsO' portO' tlsO' httpO).response_time)
    ∧ (∀ (url : String) (hostname : Option String) (declPort : Option Nat) (scheme : String)
        (m : String) (portO : PortProbe) (tlsO : TlsProbe) (httpO : HttpProbe),
        ("DNS Resolution failed: " ++ m)
          ∈ (analyzeRecord url hostname declPort scheme (.raises m) portO tlsO httpO).errors)
    ∧ (∀ (url : String) (hostname : Option String) (declPort : Option Nat) (scheme : String)
        (dnsO : DnsProbe) (portO : PortProbe) (tlsO : TlsProbe) (m : String),
        ("HTTP request failed: " ++ m)
          ∈ (analyzeRecord url hostname declPort scheme dnsO portO tlsO (.raises m)).errors) := by
  refine ⟨fun _ _ _ _ _ _ => rfl, fun _ _ _ _ _ _ _ _ _ _ _ => ⟨rfl, rfl⟩, ?_, ?_⟩
  · intro url hostname declPort scheme m portO tlsO httpO
    simp [analyzeRecord, dnsErrsOf]
  · intro url hostname declPort scheme dnsO portO tlsO m
    simp [analyzeRecord, httpErrsOf]

/-- Claim C8 (counterexample): the no-question fallback report embeds the
current timestamp, so two calls on the identical record at different clock
readings return different text. -/
theorem c8_counterexample :
    generate_url_fallback recGood none "2025-01-01T00:00:00"
      ≠ generate_url_fallback recGood none "2025-01-01T00:00:01" := by
  decide

/-- Claim C8 (amended): the Fallback Reasoner is deterministic in the record,
the question and the clock reading; on the question-answering path the
output does not depend on the clock at all, so identical `(record,
question)` inputs give identical text there — only the no-question report
(and the empty-question report) varies with the embedded timestamp. -/
theorem c8_answer_path_deterministic :
    ∀ (d : ConnRecord) (s : String) (t₁ t₂ : String), s ≠ "" →
      generate_url_fallback d (some s) t₁ = generate_url_fallback d (some s) t₂ := by
  intro d s t₁ t₂ h
  simp [generate_url_fallback, h]

/-- Claim C8 (witness): two differently-timed calls with the same question
on the same record agree. -/
theorem c8_answer_path_deterministic_witness :
    generate_url_fallback recGood (some "why is this slow?") "2025-01-01T00:00:00"
      = generate_url_fallback recGood (some "why is this slow?") "2025-01-01T00:00:01" :=
  c8_answer_path_deterministic recGood "why is this slow?"
    "2025-01-01T00:00:00" "2025-01-01T00:00:01" (by decide)

/-- Claim C9 (counterexample): a completed probe run with a non-empty
`errors` list (an HTTP 500) for which the devops-analyzer CLI still exits
0 — the exit code is not non-zero iff `errors` is non-empty. -/
theorem c9_counterexample :
    recOneErr.errors = ["HTTP Error 500: Internal Server Error"]
    ∧ recOneErr.errors ≠ []
    ∧ devopsMainUrlExit (.ok recOneErr) = 0 := by
  refine ⟨by decide, by decide, by decide⟩

/-- Claim C9 (amended): the two URL-analysis CLIs disagree — the
devops-analyzer exits 0 after every completed probe run regardless of
`errors` (and 1 on a parse failure), while the url-analyzer exits non-zero
iff `errors` is non-empty provided the record has an `ssl_info` value (on a
plaintext record the display step raises `AttributeError` and the process
exits 1 regardless of `errors`). -/
theorem c9_exit_codes :
    (∀ r : ConnRecord, devopsMainUrlExit (.ok r) = 0)
    ∧ (∀ f : FailRecord,
        uaMainUrlExit (.failureRec f) = Except.ok 1 ∧ devopsMainUrlExit (.failureRec f) = 1)
    ∧ (∀ r : ConnRecord, r.ssl_info ≠ none →
        (processExitOf (uaMainUrlExit (.ok r)) = 0 ↔ r.errors = []))
    ∧ (∀ r : ConnRecord, r.ssl_info = none →
        processExitOf (uaMainUrlExit (.ok r)) = 1) := by
  refine ⟨fun r => rfl, fun f => ⟨rfl, rfl⟩, ?_, ?_⟩
  · intro r h
    cases hs : r.ssl_info with
    | none => exact absurd hs h
    | some s =>
      cases he : r.errors with
      | nil =>
        simp [uaMainUrlExit, pyGetSslSuccess, hs, he, processExitOf, Bind.bind, Except.bind]
      | cons a t =>
        simp [uaMainUrlExit, pyGetSslSuccess, hs, he, processExitOf, Bind.bind, Except.bind]
  · intro r h
    simp [uaMainUrlExit, pyGetSslSuccess, h, processExitOf, Bind.bind, Except.bind]

/-- Claim C9 (witness): the url-analyzer exit code at concrete records with
`ssl_info` present — 0 on a clean https run, and 1 on the plaintext run. -/
theorem c9_exit_codes_witness :
    processExitOf (uaMainUrlExit (.ok recGood)) = 0
    ∧ processExitOf (uaMainUrlExit (.ok recHttpPlain)) = 1 :=
  ⟨(c9_exit_codes.2.2.1 recGood (by decide)).mpr (by decide),
   c9_exit_codes.2.2.2 recHttpPlain (by decide)⟩

/-- Claim C10 (counterexample): on a plaintext record (`ssl_info = None`,
no TLS entry in `errors`) the line-by-line summary builder and the web
fallback checklist do not render any SSL failure marker — both evaluate
`None.get('success')` and raise `AttributeError`, so no summary or
checklist text is produced at all. -/
theorem c10_counterexample :
    recHttpPlain.ssl_info = none
    ∧ recHttpPlain.errors = []
    ∧ uaSummary recHttpPlain
        = Except.error "'NoneType' object has no attribute 'get'"
    ∧ web_generate_fallback_analysis "http://example.com" recHttpPlain "2025-01-01T00:00:00"
        = Except.error "'NoneType' object has no attribute 'get'" := by
  refine ⟨by decide, by decide, by decide, by decide⟩

/-- Claim C10 (amended): for every record with `ssl_info = None` the summary
builder and the web fallback checklist raise `AttributeError` instead of
rendering an SSL line; inside `get_ai_analysis` the exception is caught and
becomes the fixed string "AI analysis failed: 'NoneType' object has no
attribute 'get'" — independent of the AI service, so no summary is ever
sent — and that string itself trips the soft-failure test; only the
devops-analyzer report variant distinguishes the case, rendering the
"Not applicable (HTTP)" line. -/
theorem c10_ssl_none_renderers :
    ∀ r : ConnRecord, r.ssl_info = none →
      uaSummary r = Except.error "'NoneType' object has no attribute 'get'"
      ∧ (∀ (u t : String), web_generate_fallback_analysis u r t
          = Except.error "'NoneType' object has no attribute 'get'")
      ∧ (∀ api : ApiOutcome, ua_get_ai_analysis r api
          = "AI analysis failed: 'NoneType' object has no attribute 'get'")
      ∧ (∀ api : ApiOutcome, uaAiFailed (ua_get_ai_analysis r api) = true)
      ∧ devopsSslLine r.ssl_info = "⚪ **SSL Certificate:** Not applicable (HTTP)\n" := by
  intro r h
  have hga : ∀ api : ApiOutcome, ua_get_ai_analysis r api
      = "AI analysis failed: 'NoneType' object has no attribute 'get'" := by
    intro api
    simp [ua_get_ai_analysis, uaSummary, h, pyGetSslSuccess, Bind.bind, Except.bind]
  refine ⟨?_, ?_, hga, ?_, ?_⟩
  · simp [uaSummary, h, pyGetSslSuccess, Bind.bind, Except.bind]
  · intro u t
    simp [web_generate_fallback_analysis, h, pyGetSslSuccess, Bind.bind, Except.bind]
  · intro api
    rw [hga api]
    decide
  · rw [h]
    rfl

/-- Claim C10 (witness): the amended behavior evaluated at the concrete
plaintext record, with the AI service answering normally. -/
theorem c10_ssl_none_renderers_witness :
    ua_get_ai_analysis recHttpPlain (ApiOutcome.ok200 (some "all healthy"))
      = "AI analysis failed: 'NoneType' object has no attribute 'get'"
    ∧ devopsSslLine recHttpPlain.ssl_info
      = "⚪ **SSL Certificate:** Not applicable (HTTP)\n" :=
  ⟨(c10_ssl_none_renderers recHttpPlain (by decide)).2.2.1 (ApiOutcome.ok200 (some "all healthy")),
   (c10_ssl_none_renderers recHttpPlain (by decide)).2.2.2.2⟩
